import Mathlib

/-!
Shallow embedding of the environment-resolution and command-execution layer of
the pippy CLI (the helpers module `src/pippy/helpers.py`, with constants from
`src/pippy/config.py`), together with theorems settling the specification
claims about that layer.

Filesystem and process state are abstracted as oracles (`SysEnv`,
`ProcOutcome`): each definition below mirrors, branch for branch, the Python
function it is named after.
-/

namespace Pippy

/-- Single-quote character (code point 39), written via `Char.ofNat`. -/
def squote : String := (Char.ofNat 39).toString

/-- Double-quote character (code point 34). -/
def dquote : String := (Char.ofNat 34).toString

/-- Constant `VENV_DIR_NAME` from `src/pippy/config.py`. -/
def VENV_DIR_NAME : String := ".venv"

/-- Constant `CONFIG_FILE_NAME` from `src/pippy/config.py`. -/
def CONFIG_FILE_NAME : String := "pippy.json"

/-- Oracle for the ambient system state consulted by the helpers module:
`sys.platform`, `sys.executable`, `Path.is_file`, `Path.is_dir`,
`Path.exists`, and `shutil.which` (the host PATH lookup). Paths are plain
strings, joined with the platform separator exactly as `pathlib` renders
them. -/
structure SysEnv where
  platform : String
  sysExecutable : String
  isFile : String → Bool
  isDir : String → Bool
  pathExists : String → Bool
  which : String → Option String

/-- Path separator: backslash (code point 92) on `win32`, slash elsewhere. -/
def sep (e : SysEnv) : String :=
  if e.platform = "win32" then (Char.ofNat 92).toString else "/"

/-- The `pathlib` join `a / b`, rendered as a string. -/
def joinPath (e : SysEnv) (a b : String) : String := a ++ sep e ++ b

/-- Embedding of `find_venv(project_dir)`: returns `project_dir / VENV_DIR_NAME`
when that path is a directory and contains a `pyvenv.cfg` marker, else `None`.
The Lean function is total, mirroring that the source raises nothing. -/
def find_venv (e : SysEnv) (project_dir : String) : Option String :=
  let venv_path := joinPath e project_dir VENV_DIR_NAME
  if e.isDir venv_path && e.pathExists (joinPath e venv_path "pyvenv.cfg") then
    some venv_path
  else none

/-- Embedding of `get_venv_python(venv_path)`: the interpreter path inside the
environment (`Scripts/python.exe` on `win32`, `bin/python` elsewhere) when it
exists, else `None`. -/
def get_venv_python (e : SysEnv) (venv_path : String) : Option String :=
  let python_exe :=
    if e.platform = "win32" then
      joinPath e (joinPath e venv_path "Scripts") "python.exe"
    else
      joinPath e (joinPath e venv_path "bin") "python"
  if e.pathExists python_exe then some python_exe else none

/-- The tagged variant the specification calls `ExecutableReference`: either a
direct path to a runnable binary, or an interpreter plus a module name to run
through it. Each `return` site of `get_executable` is one of the two. -/
inductive ExecutableReference where
  | DirectPath (p : String)
  | ModuleInvocation (interp : String) (module : String)
deriving DecidableEq

/-- Whether an `ExecutableReference` is the `DirectPath` variant. -/
def ExecutableReference.isDirect : ExecutableReference → Bool
  | ExecutableReference.DirectPath _ => true
  | ExecutableReference.ModuleInvocation _ _ => false

/-- Rendering of an `ExecutableReference` as the string `get_executable`
actually returns: a `DirectPath` is the path itself, a `ModuleInvocation` is
the source f-string with the interpreter wrapped in double quotes followed by
a `-m` flag and the module name. -/
def renderRef : ExecutableReference → String
  | ExecutableReference.DirectPath p => p
  | ExecutableReference.ModuleInvocation py m => dquote ++ py ++ dquote ++ " -m " ++ m

/-- Tail of `get_executable`: the lookup on the host PATH via `shutil.which`,
falling back to a module invocation through the current process interpreter
`sys.executable` (with a logged warning in the source). -/
def whichFallback (e : SysEnv) (command : String) : ExecutableReference :=
  match e.which command with
  | some p => ExecutableReference.DirectPath p
  | none => ExecutableReference.ModuleInvocation e.sysExecutable command

/-- Embedding of `get_executable(venv_path, command)`, with each return site
mapped to its `ExecutableReference` variant. Branch structure copied from the
source: with an environment, on `win32` try `Scripts/command.exe` then
`Scripts/command`, elsewhere try `bin/command`; if absent, fall back to a
module invocation through the environment interpreter when `get_venv_python`
finds one; otherwise (including when no environment was given) consult the
host PATH and finally `sys.executable`. -/
def getExecutableRef (e : SysEnv) (venv_path : Option String) (command : String) :
    ExecutableReference :=
  match venv_path with
  | some vp =>
    if e.platform = "win32" then
      let exe1 := joinPath e (joinPath e vp "Scripts") (command ++ ".exe")
      if e.pathExists exe1 then ExecutableReference.DirectPath exe1
      else
        let exe2 := joinPath e (joinPath e vp "Scripts") command
        if e.pathExists exe2 then ExecutableReference.DirectPath exe2
        else
          match get_venv_python e vp with
          | some py => ExecutableReference.ModuleInvocation py command
          | none => whichFallback e command
    else
      let exe := joinPath e (joinPath e vp "bin") command
      if e.pathExists exe then ExecutableReference.DirectPath exe
      else
        match get_venv_python e vp with
        | some py => ExecutableReference.ModuleInvocation py command
        | none => whichFallback e command
  | none => whichFallback e command

/-- The string `get_executable` returns, as the source types it. -/
def get_executable (e : SysEnv) (venv_path : Option String) (command : String) : String :=
  renderRef (getExecutableRef e venv_path command)

/-- Step 1 of the resolution chain: a direct executable file inside the
environment script/binary directory (with the platform-appropriate suffix
attempts on `win32`). -/
def directCandidate (e : SysEnv) (v : Option String) (c : String) :
    Option ExecutableReference :=
  match v with
  | none => none
  | some vp =>
    if e.platform = "win32" then
      let p1 := joinPath e (joinPath e vp "Scripts") (c ++ ".exe")
      if e.pathExists p1 then some (ExecutableReference.DirectPath p1)
      else
        let p2 := joinPath e (joinPath e vp "Scripts") c
        if e.pathExists p2 then some (ExecutableReference.DirectPath p2) else none
    else
      let p := joinPath e (joinPath e vp "bin") c
      if e.pathExists p then some (ExecutableReference.DirectPath p) else none

/-- Step 2 of the resolution chain: module invocation through the environment
interpreter, available only when `get_venv_python` finds one. -/
def venvModuleCandidate (e : SysEnv) (v : Option String) (c : String) :
    Option ExecutableReference :=
  match v with
  | none => none
  | some vp => (get_venv_python e vp).map (fun py => ExecutableReference.ModuleInvocation py c)

/-- Step 3 of the resolution chain: the host PATH via `shutil.which`. -/
def pathCandidate (e : SysEnv) (c : String) : Option ExecutableReference :=
  (e.which c).map ExecutableReference.DirectPath

/-- First defined element of a candidate list, with a default. -/
def firstSome : List (Option ExecutableReference) → ExecutableReference → ExecutableReference
  | [], d => d
  | some x :: _, _ => x
  | none :: rest, d => firstSome rest d

/-- Whether the environment script/binary directory holds a real executable
file for the tool (the `win32` branch admits either suffix attempt). -/
def hasDirectExe (e : SysEnv) (vp c : String) : Bool :=
  if e.platform = "win32" then
    e.pathExists (joinPath e (joinPath e vp "Scripts") (c ++ ".exe")) ||
      e.pathExists (joinPath e (joinPath e vp "Scripts") c)
  else
    e.pathExists (joinPath e (joinPath e vp "bin") c)

/-- Characters `shlex.quote` leaves unquoted: the ASCII regex class `\w`
(letters, digits, underscore, with `re.ASCII`) plus at-sign, percent, plus,
equals, colon, comma, dot, slash and hyphen. -/
def shlexSafeChar (c : Char) : Bool :=
  c.isAlphanum || c = Char.ofNat 95 || c = '@' || c = '%' || c = '+' || c = '=' ||
    c = ':' || c = ',' || c = '.' || c = '/' || c = '-'

/-- Replacement of every occurrence of one character by a string, over the
character list: the `str.replace` call of `shlex.quote`, whose pattern is the
single one-character string holding a quote. -/
def replaceCharList : List Char → Char → List Char → List Char
  | [], _, _ => []
  | ch :: rest, c, r => (if ch = c then r else [ch]) ++ replaceCharList rest c r

/-- Embedding of `shlex.quote(s)`: the empty string becomes a pair of single
quotes; a string of safe characters is returned unchanged; anything else is
wrapped in single quotes with each embedded single quote replaced by the
quote-double-quote-quote-double-quote-quote sequence. -/
def shlexQuote (s : String) : String :=
  if s = "" then squote ++ squote
  else if s.data.all shlexSafeChar then s
  else
    squote ++
      String.mk (replaceCharList s.data (Char.ofNat 39)
        (squote ++ dquote ++ squote ++ dquote ++ squote).data) ++ squote

/-- String prefix test over the character lists; the `str.startswith` call of
`ensure_tool_installed`. -/
def strStartsWith (s pre : String) : Bool := pre.data.isPrefixOf s.data

/-- Characters `str.strip()` removes (Python ASCII whitespace: space, tab,
linefeed, carriage return, vertical tab, form feed). -/
def pyIsSpace (c : Char) : Bool :=
  c = ' ' || c = Char.ofNat 9 || c = Char.ofNat 10 || c = Char.ofNat 13 ||
    c = Char.ofNat 11 || c = Char.ofNat 12

/-- Embedding of `str.strip()`: drop that whitespace from both ends. -/
def pyStrip (s : String) : String :=
  String.mk (((s.data.dropWhile pyIsSpace).reverse.dropWhile pyIsSpace).reverse)

/-- What the OS launcher (`subprocess.run`) does when invoked: fail to start
with `FileNotFoundError`, fail to start with some other exception, or start
and exit with a code and the output the pipes would capture. -/
inductive ProcOutcome where
  | fileNotFound
  | otherError
  | exited (rc : Int) (stdout : String) (stderr : String)
deriving DecidableEq

/-- Observable result of `run_cmd` at its boundary: either the returned triple
(exit code, stdout, stderr), or a raised `typer.Exit` carrying a code. -/
inductive RunResult where
  | ok (rc : Int) (stdout : String) (stderr : String)
  | exit (code : Int)
deriving DecidableEq

/-- Side effects of one `run_cmd` call: the command value actually handed to
`subprocess.run` (if the call reached it), and the stderr text echoed to the
user (if any) before a check failure raises. -/
structure RunTrace where
  launched : Option (Sum (List String) String)
  emittedStderr : Option String
deriving DecidableEq

/-- Embedding of `run_cmd(cmd_list, capture=..., check=..., shell=...)`.
`cmd` is `Sum.inl` for a list of arguments and `Sum.inr` for a pre-built
command-line string, matching the source union type. Control flow copied from
the source, including one load-bearing detail: `typer.Exit` subclasses
`RuntimeError`, so every `raise Exit(...)` placed inside the `try` body — the
shell-with-list guard and the check-failure raise — is intercepted by the
blanket `except Exception` handler, which re-raises `Exit(1)`. The
`cwd`/`env` parameters only shape the child process context and are omitted.
The `FileNotFoundError` handler logs the first element of the command before
raising; the model keeps its `Exit(127)`, which is exact for every non-empty
command. -/
def runCmd (cmd : Sum (List String) String) (capture check sh : Bool)
    (outcome : ProcOutcome) : RunResult × RunTrace :=
  match cmd, sh with
  | Sum.inl _, true =>
    (RunResult.exit 1, { launched := none, emittedStderr := none })
  | c, s =>
    let handed : Sum (List String) String :=
      match c, s with
      | Sum.inl l, false => Sum.inl (l.map shlexQuote)
      | c2, _ => c2
    match outcome with
    | ProcOutcome.fileNotFound =>
      (RunResult.exit 127, { launched := some handed, emittedStderr := none })
    | ProcOutcome.otherError =>
      (RunResult.exit 1, { launched := some handed, emittedStderr := none })
    | ProcOutcome.exited rc out err =>
      let stdout := if capture then pyStrip out else ""
      let stderr := if capture then pyStrip err else ""
      if check && (rc != 0) then
        (RunResult.exit 1,
          { launched := some handed
            emittedStderr := if stderr = "" then none else some stderr })
      else
        (RunResult.ok rc stdout stderr,
          { launched := some handed, emittedStderr := none })

/-- Embedding of `run_python_cmd(args, venv_path, ...)`: prefer the
environment interpreter, fall back (with a logged warning) to
`sys.executable`, prepend it to the argument list, and delegate to
`run_cmd` with `shell=False`. -/
def run_python_cmd (e : SysEnv) (args : List String) (venv_path : Option String)
    (capture check : Bool) (outcome : ProcOutcome) : RunResult × RunTrace :=
  let python_exe :=
    match venv_path with
    | some vp =>
      match get_venv_python e vp with
      | some p => p
      | none => e.sysExecutable
    | none => e.sysExecutable
  runCmd (Sum.inl (python_exe :: args)) capture check false outcome

/-- Embedding of `run_pip_cmd(args, venv_path, ...)`: a python command with
the package manager module-invocation arguments prepended. -/
def run_pip_cmd (e : SysEnv) (args : List String) (venv_path : Option String)
    (capture check : Bool) (outcome : ProcOutcome) : RunResult × RunTrace :=
  run_python_cmd e (["-m", "pip"] ++ args) venv_path capture check outcome

/-- The probe source text `ensure_tool_installed` interpolates into
`python -c` to test whether a module can be located without executing it. -/
def probeScript (m : String) : String :=
  "import importlib.util; import sys; sys.exit(0 if importlib.util.find_spec(" ++
    squote ++ m ++ squote ++ ") else 1)"

/-- Exit-code verdict of the importability probe: the surrounding
`try`/`except` turns any raise into a failed check, otherwise the probe
succeeds exactly when the child exited 0. -/
def probeResult (e : SysEnv) (venv_path : Option String) (m : String)
    (probeOutcome : ProcOutcome) : Bool :=
  match (run_python_cmd e ["-c", probeScript m] venv_path false false probeOutcome).1 with
  | RunResult.ok rc _ _ => rc == 0
  | RunResult.exit _ => false

/-- One subprocess started by `ensure_tool_installed`, tagged by call site:
the importability probe (`run_python_cmd`), or the package-installer
invocation (`run_pip_cmd install`). -/
inductive Launch where
  | probe (module : String)
  | pipInstall (package : String)
deriving DecidableEq

/-- Whether a launch is the package-installer subprocess. -/
def Launch.isInstall : Launch → Bool
  | Launch.pipInstall _ => true
  | Launch.probe _ => false

/-- Verification step (step 1) of `ensure_tool_installed`: decide whether the
tool is already present, recording any probe subprocess it starts. With a
`check_command` (the source only ever reads its first element, modelled here
directly), resolve the tool: a real file means installed; a string starting
with the quoted interpreter followed by a `-m` flag means probe the module;
anything else is passed to `shutil.which`. With only a `check_import`, probe
that module. With neither, the tool counts as absent. The interpreter
rendered into the comparison string is `get_venv_python` when an environment
was given (the Python `None` prints as the four-letter word when the
environment lacks an interpreter) and `sys.executable` otherwise. -/
def verifyStep (e : SysEnv) (venv_path : Option String)
    (check_command check_import : Option String) (probeOutcome : ProcOutcome) :
    Bool × List Launch :=
  let python_exe : Option String :=
    match venv_path with
    | some vp => get_venv_python e vp
    | none => some e.sysExecutable
  let pyStr : String :=
    match python_exe with
    | some p => p
    | none => "None"
  match check_command with
  | some cc0 =>
    let cmd_path := get_executable e venv_path cc0
    if e.isFile cmd_path then (true, [])
    else if strStartsWith cmd_path (dquote ++ pyStr ++ dquote ++ " -m") then
      (probeResult e venv_path cc0 probeOutcome, [Launch.probe cc0])
    else ((e.which cmd_path).isSome, [])
  | none =>
    match check_import with
    | some m => (probeResult e venv_path m probeOutcome, [Launch.probe m])
    | none => (false, [])

/-- Result of one `ensure_tool_installed` call: the verification verdict, the
subprocesses it started, and the code of the re-raised `Exit` if the install
step raised one. -/
structure EnsureResult where
  installed : Bool
  launches : List Launch
  error : Option Int
deriving DecidableEq

/-- Embedding of `ensure_tool_installed(tool_name, pip_package, venv_path,
project_dir, check_command, check_import)`: verify presence (step 1), and
only if that fails, run the package installer with `check=True` (step 2),
re-raising its `Exit`. `tool_name` and `project_dir` only feed log messages
and the child working directory. -/
def ensure_tool_installed (e : SysEnv) (_tool_name pip_package : String)
    (venv_path : Option String) (_project_dir : String)
    (check_command check_import : Option String)
    (probeOutcome installOutcome : ProcOutcome) : EnsureResult :=
  let v := verifyStep e venv_path check_command check_import probeOutcome
  if v.1 then { installed := true, launches := v.2, error := none }
  else
    let r := run_pip_cmd e ["install", pip_package] venv_path false true installOutcome
    { installed := false
      launches := v.2 ++ [Launch.pipInstall pip_package]
      error :=
        match r.1 with
        | RunResult.exit c => some c
        | RunResult.ok _ _ _ => none }

/-- Scalar JSON values; the config contract stores string and boolean values,
numbers and null are carried for generality. -/
inductive JVal where
  | jstr (s : String)
  | jbool (b : Bool)
  | jnum (n : Int)
  | jnull
deriving DecidableEq

/-- The parsed top-level object of the config file: an ordered key-value
document, as Python `json.load` yields a dict (insertion-ordered, unique
keys). -/
def ConfigDoc : Type := List (String × JVal)

/-- State of the config file on disk, by the branch `read_config` takes on
it: absent (`config_path.exists()` false), unreadable (`open`/read raised),
malformed (`json.JSONDecodeError`), or parsed into a document. -/
inductive ConfigFile where
  | missing
  | unreadable
  | malformed
  | parsed (doc : List (String × JVal))
deriving DecidableEq

/-- Value and logging effect of one `read_config` call: the document it
returns, and whether a `log.warning` fired on the way. -/
structure ReadResult where
  doc : List (String × JVal)
  warned : Bool
deriving DecidableEq

/-- Embedding of `read_config(project_dir)`, branch for branch with its
logging effect: a file that parses returns its document (no log); a missing
file fails the `config_path.exists()` test and falls through to the bare
`return {}` at the end, logging nothing; a malformed file hits the
`json.JSONDecodeError` handler and an unreadable one the generic handler,
each logging a warning and returning the empty document. No branch raises;
the Lean function is total. -/
def read_configLogged : ConfigFile → ReadResult
  | ConfigFile.parsed d => { doc := d, warned := false }
  | ConfigFile.missing => { doc := [], warned := false }
  | ConfigFile.unreadable => { doc := [], warned := true }
  | ConfigFile.malformed => { doc := [], warned := true }

/-- The document `read_config` returns. -/
def read_config (f : ConfigFile) : List (String × JVal) := (read_configLogged f).doc

/-- Python dict membership test over the ordered document. -/
def dictMem : List (String × JVal) → String → Bool
  | [], _ => false
  | p :: rest, k => p.1 == k || dictMem rest k

/-- In-place replacement part of Python dict item assignment: every entry for
the key keeps its position and takes the new value. -/
def dictReplace : List (String × JVal) → String → JVal → List (String × JVal)
  | [], _, _ => []
  | p :: rest, k, v => (if p.1 = k then (k, v) else p) :: dictReplace rest k v

/-- Python dict item assignment `d[k] = v` on the ordered document: replace in
place when the key is present, append otherwise. -/
def dictSet (d : List (String × JVal)) (k : String) (v : JVal) : List (String × JVal) :=
  if dictMem d k then dictReplace d k v else d ++ [(k, v)]

/-- Python dict lookup `d.get(k)` on the ordered document. -/
def dictGet : List (String × JVal) → String → Option JVal
  | [], _ => none
  | p :: rest, k => if p.1 = k then some p.2 else dictGet rest k

/-- Effects of one `write_config` call: the source wraps `json.dump` in a
`try`/`except` whose handler only logs (its `raise Exit(1)` is commented
out), so no code path raises. -/
structure WriteOutcome where
  raised : Option Int
  warned : Bool
deriving DecidableEq

/-- Embedding of `write_config(project_dir, config_data)`: on disk success a
debug log, on any disk failure an error log — and in both cases a normal
return. -/
def write_config (diskOk : Bool) (_config_data : List (String × JVal)) : WriteOutcome :=
  if diskOk then { raised := none, warned := false }
  else { raised := none, warned := true }

/-- Embedding of `update_config_value(project_dir, key, value)`: read the
document, set the key by dict item assignment, and hand the result to
`write_config`. The function returns the document written. -/
def update_config_value (f : ConfigFile) (key : String) (value : JVal) :
    List (String × JVal) :=
  dictSet (read_config f) key value

/-! Concrete system states used to evaluate the definitions. -/

/-- A posix system whose environment script directory holds a real `black`
executable, with an empty host PATH. -/
def wEnv : SysEnv :=
  { platform := "linux"
    sysExecutable := "/usr/bin/python3"
    isFile := fun s => s = "/proj/.venv/bin/black"
    isDir := fun s => s = "/proj/.venv"
    pathExists := fun s => s = "/proj/.venv/bin/black"
    which := fun _ => none }

/-- A posix system whose environment holds an interpreter but no `black`
binary, with an empty host PATH. -/
def wEnvB : SysEnv :=
  { platform := "linux"
    sysExecutable := "/usr/bin/python3"
    isFile := fun _ => false
    isDir := fun _ => false
    pathExists := fun s => s = "/proj/.venv/bin/python"
    which := fun _ => none }

/-- A posix system with a `.venv` directory that lacks the `pyvenv.cfg`
marker. -/
def wEnvNoMarker : SysEnv :=
  { platform := "linux"
    sysExecutable := "/usr/bin/python3"
    isFile := fun _ => false
    isDir := fun s => s = "/proj/.venv"
    pathExists := fun _ => false
    which := fun _ => none }

/-- `wEnv` with its unconsulted oracles (`isFile`, `isDir`) flipped. -/
def wEnvC : SysEnv :=
  { platform := "linux"
    sysExecutable := "/usr/bin/python3"
    isFile := fun _ => true
    isDir := fun _ => true
    pathExists := fun s => s = "/proj/.venv/bin/black"
    which := fun _ => none }

/-- Claim C4: the locator returns the environment exactly when the fixed-name
`.venv` subdirectory exists and contains the `pyvenv.cfg` marker, and a
same-named subdirectory without the marker yields absent; `find_venv` is a
total function, so the absent case is a normal return, never an error. -/
theorem find_venv_marker_iff (e : SysEnv) (d : String) :
    (find_venv e d = some (joinPath e d VENV_DIR_NAME) ↔
      e.isDir (joinPath e d VENV_DIR_NAME) = true ∧
        e.pathExists (joinPath e (joinPath e d VENV_DIR_NAME) "pyvenv.cfg") = true) ∧
    (e.isDir (joinPath e d VENV_DIR_NAME) = true →
      e.pathExists (joinPath e (joinPath e d VENV_DIR_NAME) "pyvenv.cfg") = false →
      find_venv e d = none) := by
  refine ⟨⟨fun h => ?_, fun h => ?_⟩, fun h1 h2 => ?_⟩
  · by_cases h1 : e.isDir (joinPath e d VENV_DIR_NAME) = true <;>
      by_cases h2 : e.pathExists (joinPath e (joinPath e d VENV_DIR_NAME) "pyvenv.cfg") = true <;>
      simp_all [find_venv]
  · simp [find_venv, h.1, h.2]
  · simp [find_venv, h1, h2]

/-- Witness for C4: a marker-less `.venv` folder is reported absent. -/
theorem find_venv_unmarked_witness : find_venv wEnvNoMarker "/proj" = none :=
  (find_venv_marker_iff wEnvNoMarker "/proj").2 (by decide) (by decide)

/-- Counterexample to claim C5 as stated: on a missing config file
`read_config` returns the empty document silently — the `exists()` test
fails and the bare `return {}` at the end of the function logs nothing — so
the logged-warning half of the claim fails there (warnings fire only in the
malformed and unreadable handlers). -/
theorem read_config_missing_no_warning :
    read_configLogged ConfigFile.missing = { doc := [], warned := false } := rfl

/-- Claim C5 as amended: `read_config` yields the empty document on a
missing, unreadable or malformed file and the parsed document on a
well-formed one, never raising (the Lean function is total); the warning is
logged exactly in the unreadable and malformed cases, while a missing file
yields the empty document with no warning. -/
theorem read_config_tolerant :
    read_configLogged ConfigFile.missing = { doc := [], warned := false } ∧
    read_configLogged ConfigFile.unreadable = { doc := [], warned := true } ∧
    read_configLogged ConfigFile.malformed = { doc := [], warned := true } ∧
    ∀ d : List (String × JVal),
      read_configLogged (ConfigFile.parsed d) = { doc := d, warned := false } :=
  ⟨rfl, rfl, rfl, fun _ => rfl⟩

/-- Claim C9: in non-shell mode every element of an argument list is passed
through `shlex.quote` before being handed to `subprocess.run`, whatever the
capture/check flags and whatever the process then does. -/
theorem nonshell_args_shlex_quoted (args : List String) (capture check : Bool)
    (outcome : ProcOutcome) :
    (runCmd (Sum.inl args) capture check false outcome).2.launched =
      some (Sum.inl (args.map shlexQuote)) := by
  cases outcome with
  | fileNotFound => rfl
  | otherError => rfl
  | exited rc out err =>
    simp only [runCmd]
    split <;> rfl

/-- Claim C10: calling the runner with shell mode enabled and a list-valued
command raises a fatal condition with exit code 1 — the guard raises
`Exit(1)`, the blanket handler re-raises `Exit(1)` — and `subprocess.run` is
never reached. -/
theorem shell_with_list_is_fatal_no_launch (args : List String) (capture check : Bool)
    (outcome : ProcOutcome) :
    runCmd (Sum.inl args) capture check true outcome =
      (RunResult.exit 1, { launched := none, emittedStderr := none }) := rfl

/-- Claim C1, evaluated at the failing input: a check-enabled run whose child
exits 3 with stderr captured as the word boom. The runner echoes the captured
stderr, but the `Exit(3)` it raises is intercepted by its own blanket
`except Exception` handler (`typer.Exit` subclasses `RuntimeError`), which
re-raises `Exit(1)`: the condition the caller observes carries 1, not the
observed code 3. The check-disabled half of the claim holds: the same run
returns the triple without raising. -/
theorem runCmd_check_failure_eval :
    runCmd (Sum.inl ["sh", "-c", "exit 3"]) true true false
        (ProcOutcome.exited 3 "" "boom") =
      (RunResult.exit 1,
        { launched := some (Sum.inl (List.map shlexQuote ["sh", "-c", "exit 3"]))
          emittedStderr := some "boom" }) ∧
    runCmd (Sum.inl ["sh", "-c", "exit 3"]) true false false
        (ProcOutcome.exited 3 "" "boom") =
      (RunResult.ok 3 "" "boom",
        { launched := some (Sum.inl (List.map shlexQuote ["sh", "-c", "exit 3"]))
          emittedStderr := none }) :=
  ⟨rfl, rfl⟩

/-- Claim C2: resolution follows the fixed chain — direct executable in the
environment, else module invocation through the environment interpreter, else
the host PATH, and as last resort a module invocation through the current
process interpreter (the branch the source pairs with a warning) — and in
particular an environment holding a real executable file for the tool always
resolves to `DirectPath`, never `ModuleInvocation`. -/
theorem resolver_fixed_order_and_direct_preference (e : SysEnv) (v : Option String)
    (c : String) :
    getExecutableRef e v c =
      firstSome [directCandidate e v c, venvModuleCandidate e v c, pathCandidate e c]
        (ExecutableReference.ModuleInvocation e.sysExecutable c) ∧
    (∀ vp, v = some vp → hasDirectExe e vp c = true →
      (getExecutableRef e v c).isDirect = true) := by
  constructor
  · cases v with
    | none =>
      simp only [getExecutableRef, directCandidate, venvModuleCandidate, pathCandidate,
        firstSome, whichFallback]
      cases h : e.which c <;> simp [firstSome]
    | some vp =>
      by_cases hp : e.platform = "win32"
      · simp only [getExecutableRef, directCandidate, venvModuleCandidate, pathCandidate, hp,
          if_true, whichFallback]
        cases h1 : e.pathExists (joinPath e (joinPath e vp "Scripts") (c ++ ".exe")) <;>
          cases h2 : e.pathExists (joinPath e (joinPath e vp "Scripts") c) <;>
          cases hq : get_venv_python e vp <;>
          cases hw : e.which c <;>
          simp [firstSome, h1, h2, hq, hw]
      · simp only [getExecutableRef, directCandidate, venvModuleCandidate, pathCandidate, hp,
          if_false, whichFallback]
        cases h1 : e.pathExists (joinPath e (joinPath e vp "bin") c) <;>
          cases hq : get_venv_python e vp <;>
          cases hw : e.which c <;>
          simp [firstSome, h1, hq, hw]
  · rintro vp rfl hd
    by_cases hp : e.platform = "win32"
    · simp only [hasDirectExe, hp, if_true, Bool.or_eq_true] at hd
      cases h1 : e.pathExists (joinPath e (joinPath e vp "Scripts") (c ++ ".exe")) with
      | true => simp [getExecutableRef, hp, h1, ExecutableReference.isDirect]
      | false =>
        have h2 : e.pathExists (joinPath e (joinPath e vp "Scripts") c) = true := by
          rcases hd with hd | hd
          · rw [h1] at hd; cases hd
          · exact hd
        simp [getExecutableRef, hp, h1, h2, ExecutableReference.isDirect]
    · simp only [hasDirectExe, hp, if_false] at hd
      simp [getExecutableRef, hp, hd, ExecutableReference.isDirect]

/-- Witness for C2: on `wEnv`, whose environment holds a real `black`
executable, resolution returns the `DirectPath` variant. -/
theorem resolver_direct_preference_witness :
    (getExecutableRef wEnv (some "/proj/.venv") "black").isDirect = true :=
  (resolver_fixed_order_and_direct_preference wEnv (some "/proj/.venv") "black").2
    "/proj/.venv" rfl (by decide)

/-- Counterexample to claim C8 as stated: two invocations with the identical
tool name, identical environment presence (the same present environment
argument) and identical host PATH lookup (the same `which` function, here
empty) still resolve to different `ExecutableReference` variants, because the
result also depends on the environment contents: `wEnv` holds a `black`
binary (`DirectPath`), `wEnvB` holds only an interpreter
(`ModuleInvocation`). -/
theorem resolution_not_determined_by_presence :
    wEnv.which = wEnvB.which ∧
    wEnv.platform = wEnvB.platform ∧
    wEnv.sysExecutable = wEnvB.sysExecutable ∧
    getExecutableRef wEnv (some "/proj/.venv") "black" ≠
      getExecutableRef wEnvB (some "/proj/.venv") "black" :=
  ⟨rfl, rfl, rfl, by decide⟩

/-- Claim C8 as amended: resolution is a pure function of the tool name, the
environment argument, and exactly the system state it consults — the
platform, the current process interpreter, the path-existence oracle and the
host PATH lookup. Two system states agreeing on those (however much the
unconsulted `isFile`/`isDir` oracles differ) resolve every tool
identically. -/
theorem resolution_pure_in_consulted_inputs (e eB : SysEnv) (v : Option String)
    (c : String) (hp : e.platform = eB.platform) (hx : e.sysExecutable = eB.sysExecutable)
    (hpe : e.pathExists = eB.pathExists) (hw : e.which = eB.which) :
    getExecutableRef e v c = getExecutableRef eB v c := by
  obtain ⟨p1, x1, f1, d1, pe1, w1⟩ := e
  obtain ⟨p2, x2, f2, d2, pe2, w2⟩ := eB
  dsimp only at hp hx hpe hw
  subst hp hx hpe hw
  rfl

/-- Witness for C8 as amended: `wEnv` and `wEnvC` differ on every unconsulted
oracle yet resolve `black` to the same reference. -/
theorem resolution_pure_witness :
    getExecutableRef wEnv (some "/proj/.venv") "black" =
      getExecutableRef wEnvC (some "/proj/.venv") "black" :=
  resolution_pure_in_consulted_inputs wEnv wEnvC (some "/proj/.venv") "black"
    rfl rfl rfl rfl

/-- Verification launches at most a probe subprocess, never the installer. -/
theorem verifyStep_no_install (e : SysEnv) (venv_path : Option String)
    (cc ci : Option String) (po : ProcOutcome) :
    ((verifyStep e venv_path cc ci po).2).all (fun l => !l.isInstall) = true := by
  unfold verifyStep
  cases cc with
  | some cc0 =>
    dsimp only
    split
    · rfl
    · split
      · simp [Launch.isInstall]
      · rfl
  | none =>
    cases ci <;> simp [Launch.isInstall]

/-- Claim C3: whenever the verification step of `ensure_tool_installed`
succeeds — its resolved executable is a real file, its importability probe
exits 0, or the host PATH knows the command — no package-installer
subprocess is launched: every launch in the trace is a probe. -/
theorem ensure_verified_launches_no_install (e : SysEnv) (t p : String)
    (venv_path : Option String) (pd : String) (cc ci : Option String)
    (po iOut : ProcOutcome)
    (h : (ensure_tool_installed e t p venv_path pd cc ci po iOut).installed = true) :
    ((ensure_tool_installed e t p venv_path pd cc ci po iOut).launches).all
      (fun l => !l.isInstall) = true := by
  unfold ensure_tool_installed at h ⊢
  by_cases hv : (verifyStep e venv_path cc ci po).1 = true
  · simpa [hv] using verifyStep_no_install e venv_path cc ci po
  · simp [hv] at h

/-- Witness for C3: on `wEnv` the tool `black` resolves to a real file, the
verification verdict is positive, and the trace holds no installer launch. -/
theorem ensure_verified_no_install_witness :
    (ensure_tool_installed wEnv "black" "black" (some "/proj/.venv") "/proj"
        (some "black") none (ProcOutcome.exited 0 "" "")
        (ProcOutcome.exited 0 "" "")).installed = true ∧
    ((ensure_tool_installed wEnv "black" "black" (some "/proj/.venv") "/proj"
        (some "black") none (ProcOutcome.exited 0 "" "")
        (ProcOutcome.exited 0 "" "")).launches).all (fun l => !l.isInstall) = true :=
  ⟨by decide,
    ensure_verified_launches_no_install wEnv "black" "black" (some "/proj/.venv") "/proj"
      (some "black") none (ProcOutcome.exited 0 "" "") (ProcOutcome.exited 0 "" "")
      (by decide)⟩

/-- Replacing a present key finds the new value. -/
theorem dictGet_replace_same (d : List (String × JVal)) (k : String) (v : JVal)
    (h : dictMem d k = true) : dictGet (dictReplace d k v) k = some v := by
  induction d with
  | nil => simp [dictMem] at h
  | cons p rest ih =>
    by_cases hk : p.1 = k
    · simp [dictReplace, dictGet, hk]
    · simp only [dictMem, Bool.or_eq_true, beq_iff_eq, hk, false_or] at h
      simp only [dictReplace, dictGet, hk, if_false, if_neg hk]
      exact ih h

/-- Appending an absent key finds the new value. -/
theorem dictGet_append_same (d : List (String × JVal)) (k : String) (v : JVal)
    (h : dictMem d k = false) : dictGet (d ++ [(k, v)]) k = some v := by
  induction d with
  | nil => simp [dictGet]
  | cons p rest ih =>
    simp only [dictMem, Bool.or_eq_false_iff, beq_eq_false_iff_ne, ne_eq] at h
    simp only [List.cons_append, dictGet, if_neg h.1]
    exact ih h.2

/-- Setting a key makes it map to the new value. -/
theorem dictGet_set_same (d : List (String × JVal)) (k : String) (v : JVal) :
    dictGet (dictSet d k v) k = some v := by
  unfold dictSet
  by_cases h : dictMem d k = true
  · simp only [h, if_true]
    exact dictGet_replace_same d k v h
  · have h0 : dictMem d k = false := by simpa using h
    simp only [h0, Bool.false_eq_true, if_false]
    exact dictGet_append_same d k v h0

/-- Replacement of one key leaves lookups of any other key unchanged. -/
theorem dictGet_replace_ne (d : List (String × JVal)) (kA kB : String) (v : JVal)
    (hne : kA ≠ kB) : dictGet (dictReplace d kB v) kA = dictGet d kA := by
  induction d with
  | nil => rfl
  | cons p rest ih =>
    by_cases hb : p.1 = kB
    · have ha : ¬ p.1 = kA := by
        rw [hb]
        exact fun hh => hne hh.symm
      have hba : ¬ kB = kA := fun hh => hne hh.symm
      simp only [dictReplace, dictGet, hb, if_true, if_neg ha, if_neg hba]
      exact ih
    · simp only [dictReplace, dictGet, if_neg hb]
      by_cases ha : p.1 = kA
      · simp [ha]
      · simp only [if_neg ha]
        exact ih

/-- Appending one key leaves lookups of any other key unchanged. -/
theorem dictGet_append_ne (d : List (String × JVal)) (kA kB : String) (v : JVal)
    (hne : kA ≠ kB) : dictGet (d ++ [(kB, v)]) kA = dictGet d kA := by
  induction d with
  | nil =>
    have hba : ¬ kB = kA := fun hh => hne hh.symm
    simp [dictGet, hba]
  | cons p rest ih =>
    by_cases ha : p.1 = kA
    · simp [dictGet, ha]
    · simp only [List.cons_append, dictGet, if_neg ha]
      exact ih

/-- Setting one key leaves lookups of any other key unchanged. -/
theorem dictGet_set_ne (d : List (String × JVal)) (kA kB : String) (v : JVal)
    (hne : kA ≠ kB) : dictGet (dictSet d kB v) kA = dictGet d kA := by
  unfold dictSet
  by_cases h : dictMem d kB = true
  · simp only [h, if_true]
    exact dictGet_replace_ne d kA kB v hne
  · simp only [h, if_false]
    exact dictGet_append_ne d kA kB v hne

/-- Claim C6: an update of key B never drops an unrelated key A — after
`update_config_value` writes the document and a later `read_config` parses it
back, A still maps to its old value and B maps to the new one. The
`ConfigFile.parsed` argument states that the write reached the disk, the case
the claim describes (the source treats a failed write as non-fatal). -/
theorem update_config_preserves_unrelated_keys (f : ConfigFile) (kA : String)
    (vA : JVal) (kB : String) (vB : JVal) (hne : kA ≠ kB)
    (hA : dictGet (read_config f) kA = some vA) :
    dictGet (read_config (ConfigFile.parsed (update_config_value f kB vB))) kA =
        some vA ∧
    dictGet (read_config (ConfigFile.parsed (update_config_value f kB vB))) kB =
        some vB := by
  constructor
  · simpa [read_config, read_configLogged, update_config_value,
      dictGet_set_ne _ kA kB vB hne] using hA
  · simp [read_config, read_configLogged, update_config_value, dictGet_set_same]

/-- Witness for C6, the round trip of the specification scenario: a document
holding `main` set to an entry-script string, updated at `use_env_key` with a
boolean, reads back with both keys present and correctly typed. -/
theorem update_config_round_trip_witness :
    dictGet (read_config (ConfigFile.parsed (update_config_value
        (ConfigFile.parsed [("main", JVal.jstr "app.py")]) "use_env_key"
        (JVal.jbool true)))) "main" = some (JVal.jstr "app.py") ∧
    dictGet (read_config (ConfigFile.parsed (update_config_value
        (ConfigFile.parsed [("main", JVal.jstr "app.py")]) "use_env_key"
        (JVal.jbool true)))) "use_env_key" = some (JVal.jbool true) :=
  update_config_preserves_unrelated_keys
    (ConfigFile.parsed [("main", JVal.jstr "app.py")]) "main" (JVal.jstr "app.py")
    "use_env_key" (JVal.jbool true) (by decide) (by decide)

/-- Claim C7, the exit-code mapping of the layer: a check-enabled run whose
child exits non-zero ends in `Exit(1)` (the generic fatal code — the observed
code is rewrapped by the blanket handler); a launch the OS cannot satisfy
ends in `Exit(127)` in both list and string modes; any other launch
exception ends in `Exit(1)`; a zero exit returns the triple normally
(success propagates as exit code 0); `write_config` never raises, so a
config write failure is non-fatal; and a failed install leaves
`ensure_tool_installed` re-raising code 1 (its only other outcome being no
raise at all). -/
theorem exit_code_mapping :
    (∀ (args : List String) (capture : Bool) (rc : Int) (out err : String), rc ≠ 0 →
      (runCmd (Sum.inl args) capture true false (ProcOutcome.exited rc out err)).1 =
        RunResult.exit 1) ∧
    (∀ (args : List String) (capture check : Bool),
      (runCmd (Sum.inl args) capture check false ProcOutcome.fileNotFound).1 =
        RunResult.exit 127) ∧
    (∀ (s : String) (capture check sh : Bool),
      (runCmd (Sum.inr s) capture check sh ProcOutcome.fileNotFound).1 =
        RunResult.exit 127) ∧
    (∀ (args : List String) (capture check : Bool),
      (runCmd (Sum.inl args) capture check false ProcOutcome.otherError).1 =
        RunResult.exit 1) ∧
    (∀ (args : List String) (capture : Bool) (out err : String),
      (runCmd (Sum.inl args) capture true false (ProcOutcome.exited 0 out err)).1 =
        RunResult.ok 0 (if capture then pyStrip out else "")
          (if capture then pyStrip err else "")) ∧
    (∀ (ok : Bool) (doc : List (String × JVal)), (write_config ok doc).raised = none) ∧
    (∀ (e : SysEnv) (t p : String) (venv_path : Option String) (pd : String)
        (cc ci : Option String) (po : ProcOutcome) (rc : Int) (out err : String),
      rc ≠ 0 →
      (ensure_tool_installed e t p venv_path pd cc ci po
          (ProcOutcome.exited rc out err)).error = none ∨
      (ensure_tool_installed e t p venv_path pd cc ci po
          (ProcOutcome.exited rc out err)).error = some 1) := by
  refine ⟨?_, ?_, ?_, ?_, ?_, ?_, ?_⟩
  · intro args capture rc out err h
    simp [runCmd, h]
  · intro args capture check
    rfl
  · intro s capture check sh
    cases sh <;> rfl
  · intro args capture check
    rfl
  · intro args capture out err
    rfl
  · intro ok doc
    cases ok <;> rfl
  · intro e t p venv_path pd cc ci po rc out err h
    unfold ensure_tool_installed
    by_cases hv : (verifyStep e venv_path cc ci po).1 = true
    · left
      simp [hv]
    · right
      simp [hv, run_pip_cmd, run_python_cmd, runCmd, h]

/-- Witness for C7: a check-enabled run exiting 2 maps to `Exit(1)`, and an
absent tool whose install subprocess exits 2 leaves the installer on code 1. -/
theorem exit_code_mapping_witness :
    (runCmd (Sum.inl ["pip"]) false true false (ProcOutcome.exited 2 "" "")).1 =
        RunResult.exit 1 ∧
    ((ensure_tool_installed wEnvB "black" "black" (some "/proj/.venv") "/proj" none none
        (ProcOutcome.exited 1 "" "") (ProcOutcome.exited 2 "" "")).error = none ∨
      (ensure_tool_installed wEnvB "black" "black" (some "/proj/.venv") "/proj" none none
        (ProcOutcome.exited 1 "" "") (ProcOutcome.exited 2 "" "")).error = some 1) :=
  ⟨exit_code_mapping.1 ["pip"] false 2 "" "" (by decide),
    exit_code_mapping.2.2.2.2.2.2 wEnvB "black" "black" (some "/proj/.venv") "/proj"
      none none (ProcOutcome.exited 1 "" "") 2 "" "" (by decide)⟩

end Pippy
